import Mathlib

/-!
Shallow embedding of the core of the Cement-Plant-AI-Optimization-System
repository: the domain calculators and KPI dashboard
(`backend/app/services/optimization_tools.py`), the scheduler jobs
(`backend/app/services/scheduler.py`), the websocket connection registry
(`server/app/utils/websocket_manager.py`) and the websocket message
builders (`backend/app/routers/websockets.py`).

Python dynamic values are modelled by `PyVal` (numbers as exact rationals),
Python exceptions by the `Except String` monad, and `round(x, n)` by exact
half-even rounding on rationals.
-/

namespace Cement

/-- Dynamically typed Python value (the shapes that occur in the readings
and results handled by the core). Numbers are modelled as exact rationals. -/
inductive PyVal where
  | num (q : ℚ)
  | str (s : String)
  | pybool (b : Bool)
  | pynone
deriving DecidableEq, Repr

/-- Python dict with string keys, as an association list (first binding wins,
as in the repository's literal dicts which have distinct keys). -/
abbrev PyDict := List (String × PyVal)

/-- Computations that may raise a Python exception. -/
abbrev PyM := Except String

/-- Embeds `d.get(k, dflt)`. -/
def dget (d : PyDict) (k : String) (dflt : PyVal) : PyVal :=
  match d.find? (fun kv => kv.1 == k) with
  | some kv => kv.2
  | Option.none => dflt

/-- Coercion of a value to a number as Python's arithmetic/comparison
operators perform it: ints/floats are numbers, `bool` is an int subtype
(True = 1, False = 0), anything else raises `TypeError`. -/
def toNum : PyVal → PyM ℚ
  | PyVal.num q => Except.ok q
  | PyVal.pybool b => Except.ok (if b then 1 else 0)
  | PyVal.str _ => Except.error "TypeError"
  | PyVal.pynone => Except.error "TypeError"

/-- Python truthiness: nonzero number, nonempty string, True; `None` is falsy. -/
def truthy : PyVal → Bool
  | PyVal.num q => q ≠ 0
  | PyVal.str s => s ≠ ""
  | PyVal.pybool b => b
  | PyVal.pynone => false

/-- Numeric view used by `isinstance(x, (int, float))` checks
(Python's `bool` is an `int` subtype, so it passes the check). -/
def pyNumVal : PyVal → Option ℚ
  | PyVal.num q => some q
  | PyVal.pybool b => some (if b then 1 else 0)
  | _ => Option.none

/-- Embeds `x == "lit"` for a dynamic `x`: equal only when `x` is that string. -/
def pyEqStr (v : PyVal) (s : String) : Bool :=
  match v with
  | PyVal.str t => t == s
  | _ => false

/-- Round-half-to-even to an integer, the rounding mode of Python's `round`. -/
def roundHalfEven (q : ℚ) : ℤ :=
  let f := ⌊q⌋
  let r := q - (f : ℚ)
  if r < 1/2 then f
  else if 1/2 < r then f + 1
  else if f % 2 = 0 then f else f + 1

/-- Embeds Python's `round(q, n)` (half-even, on exact rationals). -/
def pyRound (q : ℚ) (n : ℕ) : ℚ :=
  (roundHalfEven (q * (10 : ℚ) ^ n) : ℚ) / (10 : ℚ) ^ n

/-- Metric cell `{value, status}` as embedded in calculator results
(`value: None` in the error structures); the constant `target` annotations
of the source dicts are presentational and carried implicitly. -/
structure Metric where
  value : Option ℚ
  status : String
deriving DecidableEq, Repr

/-! ### CementChemistryCalculator (optimization_tools.py lines 17-141) -/

/-- LSF denominator `2.8*sio2 + 1.2*al2o3 + 0.65*fe2o3` (line 54). -/
def lsfDenom (sio2 al2o3 fe2o3 : ℚ) : ℚ :=
  2.8 * sio2 + 1.2 * al2o3 + 0.65 * fe2o3

/-- Legacy LSF ratio (lines 53-56): `cao / denom`, 0 when the denominator is 0. -/
def lsf_ratio_of (cao sio2 al2o3 fe2o3 : ℚ) : ℚ :=
  if lsfDenom sio2 al2o3 fe2o3 ≠ 0 then cao / lsfDenom sio2 al2o3 fe2o3 else 0

/-- `_lsf_percent` (lines 29-34): `(cao / denom) * 100.0`, 0 when denom is 0. -/
def lsf_percent_of (cao sio2 al2o3 fe2o3 : ℚ) : ℚ :=
  if lsfDenom sio2 al2o3 fe2o3 = 0 then 0
  else (cao / lsfDenom sio2 al2o3 fe2o3) * 100

/-- `_silica_modulus` (lines 36-39). -/
def silica_modulus_of (sio2 al2o3 fe2o3 : ℚ) : ℚ :=
  if al2o3 + fe2o3 ≠ 0 then sio2 / (al2o3 + fe2o3) else 0

/-- `_alumina_modulus` (lines 41-43). -/
def alumina_modulus_of (al2o3 fe2o3 : ℚ) : ℚ :=
  if fe2o3 ≠ 0 then al2o3 / fe2o3 else 0

/-- `_bogue_c3s` (lines 25-27). -/
def bogue_c3s (cao sio2 al2o3 fe2o3 : ℚ) : ℚ :=
  4.07 * cao - 7.6 * sio2 - 6.72 * al2o3 - 1.43 * fe2o3

/-- Result dict of `analyze_chemistry`. -/
structure ChemResult where
  lsf : Metric
  lsf_pct : Metric
  silica_modulus : Metric
  alumina_modulus : Metric
  c3s : Metric
  recommendations : List String
  chem_error : Option String
deriving DecidableEq, Repr

/-- The chemistry result computed from the four resolved oxide numbers
(lines 52-113). -/
def chemResultOf (cao sio2 al2o3 fe2o3 : ℚ) : ChemResult :=
  let lsf_ratio := lsf_ratio_of cao sio2 al2o3 fe2o3
  let lsf_pct := lsf_percent_of cao sio2 al2o3 fe2o3
  let am := alumina_modulus_of al2o3 fe2o3
  let sm := silica_modulus_of sio2 al2o3 fe2o3
  let c3s := max 0 (bogue_c3s cao sio2 al2o3 fe2o3)
  let status :=
    if 0.92 ≤ lsf_ratio ∧ lsf_ratio ≤ 0.98 then "optimal"
    else if 0.88 ≤ lsf_ratio ∧ lsf_ratio ≤ 1.02 then "acceptable"
    else "critical"
  let lsf_pct_status :=
    if 92 ≤ lsf_pct ∧ lsf_pct ≤ 98 then "optimal"
    else if 90 ≤ lsf_pct ∧ lsf_pct ≤ 100 then "warning"
    else "critical"
  let sm_status := if 2.2 ≤ sm ∧ sm ≤ 3.2 then "optimal" else "warning"
  let am_status := if 1.5 ≤ am ∧ am ≤ 2.5 then "optimal" else "warning"
  let recs :=
    (if lsf_pct < 92 then ["Increase CaO content - risk of under-burning"]
     else if lsf_pct > 98 then
       ["Reduce CaO content - risk of over-burning and higher energy use"]
     else []) ++
    (if am < 1.5 then ["Increase Al2O3 or reduce Fe2O3 to raise AM"]
     else if am > 2.5 then ["Reduce Al2O3 or increase Fe2O3 to lower AM"]
     else [])
  { lsf := ⟨some (pyRound lsf_ratio 3), status⟩
    lsf_pct := ⟨some (pyRound lsf_pct 2), lsf_pct_status⟩
    silica_modulus := ⟨some (pyRound sm 2), sm_status⟩
    alumina_modulus := ⟨some (pyRound am 2), am_status⟩
    c3s := ⟨some (pyRound c3s 2), "calculated"⟩
    recommendations := recs
    chem_error := Option.none }

/-- Body of `analyze_chemistry` (lines 46-113). All four oxide fields are
used numerically on every path (every field feeds the comparisons or the
C3S term), so resolving them upfront yields the same ok/error outcome as
Python's left-to-right evaluation; only the exception message can differ. -/
def chemistryBody (d : PyDict) : PyM ChemResult := do
  let cao ← toNum (dget d "cao_pct" (PyVal.num 54))
  let sio2 ← toNum (dget d "sio2_pct" (PyVal.num 20))
  let al2o3 ← toNum (dget d "al2o3_pct" (PyVal.num 5))
  let fe2o3 ← toNum (dget d "fe2o3_pct" (PyVal.num 3))
  pure (chemResultOf cao sio2 al2o3 fe2o3)

/-- Error structure of `analyze_chemistry` (lines 114-141): all metric
values are null and all statuses are "error". -/
def chemErrorResult (e : String) : ChemResult :=
  { lsf := ⟨Option.none, "error"⟩
    lsf_pct := ⟨Option.none, "error"⟩
    silica_modulus := ⟨Option.none, "error"⟩
    alumina_modulus := ⟨Option.none, "error"⟩
    c3s := ⟨Option.none, "error"⟩
    recommendations := []
    chem_error := some ("chemistry_calculation_failed: " ++ e) }

/-- `CementChemistryCalculator.analyze_chemistry`: the body under its
catch-all `except` (lines 45-141). -/
def analyze_chemistry (d : PyDict) : ChemResult :=
  match chemistryBody d with
  | Except.ok r => r
  | Except.error e => chemErrorResult e

/-! ### EnergyEfficiencyCalculator (optimization_tools.py lines 144-205) -/

/-- SEC as computed on line 156: `power / feed_rate if feed_rate > 0 else 30`. -/
def grindingSec (power feed : ℚ) : ℚ :=
  if 0 < feed then power / feed else 30

/-- Potential savings (lines 158-166): 0 when sec ≤ 25, `(sec-25)*feed` otherwise. -/
def grindingPotentialSavings (sec feed : ℚ) : ℚ :=
  if sec ≤ 25 then 0 else (sec - 25) * feed

/-- Status bands of lines 158-166. -/
def grindingStatus (sec : ℚ) : String :=
  if sec ≤ 25 then "optimal" else if sec ≤ 30 then "acceptable" else "critical"

/-- The `specific_energy_consumption` sub-dict of the grinding result. -/
structure SecMetric where
  value : Option ℚ
  status : String
  potential_savings_kwh : Option ℚ
  target : ℚ
deriving DecidableEq, Repr

/-- Result dict of `analyze_grinding_efficiency`. -/
structure GrindingResult where
  specific_energy_consumption : SecMetric
  efficiency_pct : Option ℚ
  optimization_potential_kw : Option ℚ
  recommendations : List String
  grind_error : Option String
deriving DecidableEq, Repr

/-- The grinding result computed from the resolved SEC and feed rate plus
the dynamic mill type / differential pressure (lines 158-191). The feed
rate is forced numeric by the `feed_rate > 0` comparison in the body; the
power value is only forced when that comparison succeeds (otherwise
`sec = 30` without touching it), exactly as in the Python conditional
expression. -/
def grindingResultOf (sec feed : ℚ) (millType dpV : PyVal) : GrindingResult :=
  let status := grindingStatus sec
  let potential_savings := grindingPotentialSavings sec feed
  let vrmRecs :=
    if pyEqStr millType "VRM" then
      match pyNumVal dpV with
      | some dp =>
        if dp < 65 then ["VRM DP low: increase feed or reduce airflow"]
        else if dp > 75 then ["VRM DP high: reduce feed or increase airflow"]
        else []
      | Option.none => []
    else []
  let secRecs :=
    (if sec > 30 then ["Investigate grinding aid dosage & classifier settings"]
     else []) ++
    (if potential_savings > 0 then
      ["Execute energy tuning to capture SEC savings"]
     else [])
  let optimization_potential := max 0 (sec - 25) * feed
  { specific_energy_consumption :=
      ⟨some (pyRound sec 2), status, some (pyRound potential_savings 2), 25⟩
    efficiency_pct := some (min 100 (max 60 (100 - (sec - 25) * 3)))
    optimization_potential_kw := some (pyRound optimization_potential 2)
    recommendations := vrmRecs ++ secRecs
    grind_error := Option.none }

/-- Body of `analyze_grinding_efficiency` (lines 151-191), resolving the
dynamic inputs and delegating to `grindingResultOf`. -/
def grindingBody (d : PyDict) : PyM GrindingResult := do
  let powerV := dget d "power_consumption_kw" (PyVal.num 2000)
  let millType := dget d "mill_type" PyVal.pynone
  let dpV := dget d "differential_pressure_mbar" PyVal.pynone
  let feed ← toNum (dget d "total_feed_rate_tph" (PyVal.num 80))
  let sec ←
    if 0 < feed then do
      let power ← toNum powerV
      pure (grindingSec power feed)
    else pure (30 : ℚ)
  pure (grindingResultOf sec feed millType dpV)

/-- Error structure of `analyze_grinding_efficiency` (lines 192-205). -/
def grindingErrorResult (e : String) : GrindingResult :=
  { specific_energy_consumption := ⟨Option.none, "error", Option.none, 25⟩
    efficiency_pct := Option.none
    optimization_potential_kw := Option.none
    recommendations := []
    grind_error := some ("grinding_efficiency_failed: " ++ e) }

/-- `EnergyEfficiencyCalculator.analyze_grinding_efficiency` (lines 150-205). -/
def analyze_grinding_efficiency (d : PyDict) : GrindingResult :=
  match grindingBody d with
  | Except.ok r => r
  | Except.error e => grindingErrorResult e

/-! ### AlternativeFuelOptimizer (optimization_tools.py lines 208-263) -/

/-- `FUEL_PROPERTIES[...]["cv"]` with the `.get(fuel, {}).get("cv", 25.0)`
default (lines 211-217, 220). -/
def fuelCV (f : String) : ℚ :=
  if f = "coal" then 25
  else if f = "waste_tire" then 32.5
  else if f = "biomass" then 18.7
  else if f = "RDF" then 15.5
  else if f = "petcoke" then 35
  else 25

/-- `FUEL_PROPERTIES[...]["co2_factor"]` with the `.get(..., 0)` default. -/
def fuelCO2 (f : String) : ℚ :=
  if f = "coal" then 0.094
  else if f = "waste_tire" then 0.085
  else if f = "biomass" then 0
  else if f = "RDF" then 0.083
  else if f = "petcoke" then 0.102
  else 0

/-- CV lookup when the fuel key is a dynamic value (a non-string key is
absent from the table, so the 25.0 default applies). -/
def fuelCVof (v : PyVal) : ℚ :=
  match v with
  | PyVal.str s => fuelCV s
  | _ => 25

/-- CO2-factor lookup for a dynamic fuel key (default 0). -/
def fuelCO2of (v : PyVal) : ℚ :=
  match v with
  | PyVal.str s => fuelCO2 s
  | _ => 0

/-- `_fuel_energy` (lines 219-221): `rate * cv * 1000` in MJ/h, for a
dynamic fuel key. -/
def fuel_energy_of (fuel : PyVal) (rate : ℚ) : ℚ :=
  rate * fuelCVof fuel * 1000

/-- Total current fuel energy `coal_energy + alt_energy` (line 230). -/
def fuelTotalEnergy (coal_rate alt_rate : ℚ) (altType : PyVal) : ℚ :=
  fuel_energy_of (PyVal.str "coal") coal_rate + fuel_energy_of altType alt_rate

/-- `target_alt_energy` (line 232): `(target_tsr/100) * total if total else 0`. -/
def targetAltEnergy (coal_rate alt_rate : ℚ) (altType : PyVal) (target_tsr : ℚ) : ℚ :=
  if fuelTotalEnergy coal_rate alt_rate altType ≠ 0 then
    (target_tsr / 100) * fuelTotalEnergy coal_rate alt_rate altType
  else 0

/-- `recommended_alt_rate` (lines 233-235), before the 3-decimal rounding. -/
def recommendedAltRate (coal_rate alt_rate : ℚ) (altType : PyVal) (target_tsr : ℚ) : ℚ :=
  if fuelCVof altType * 1000 ≠ 0 then
    targetAltEnergy coal_rate alt_rate altType target_tsr / (fuelCVof altType * 1000)
  else 0

/-- `recommended_coal_rate` (lines 234-236), before the 3-decimal rounding. -/
def recommendedCoalRate (coal_rate alt_rate : ℚ) (altType : PyVal) (target_tsr : ℚ) : ℚ :=
  if fuelCV "coal" * 1000 ≠ 0 then
    (fuelTotalEnergy coal_rate alt_rate altType
      - targetAltEnergy coal_rate alt_rate altType target_tsr) / (fuelCV "coal" * 1000)
  else 0

/-- Result dict of `optimize_fuel_mix`. -/
structure FuelResult where
  current_tsr : Option ℚ
  target_tsr : ℚ
  recommended_coal_rate_tph : Option ℚ
  recommended_alt_fuel_rate_tph : Option ℚ
  co2_reduction_kg_h : Option ℚ
  feasibility : String
  fuel_error : Option String
deriving DecidableEq, Repr

/-- The fuel result computed from the resolved rates and the dynamic fuel
type (lines 228-252). -/
def fuelResultOf (coal_rate alt_rate : ℚ) (altType : PyVal) (target_tsr : ℚ) : FuelResult :=
  let coal_energy := fuel_energy_of (PyVal.str "coal") coal_rate
  let alt_energy := fuel_energy_of altType alt_rate
  let total := fuelTotalEnergy coal_rate alt_rate altType
  let tsr := if total ≠ 0 then alt_energy / total * 100 else 0
  let target_alt_energy := targetAltEnergy coal_rate alt_rate altType target_tsr
  let rec_alt := recommendedAltRate coal_rate alt_rate altType target_tsr
  let rec_coal := recommendedCoalRate coal_rate alt_rate altType target_tsr
  let coal_co2 := coal_energy * fuelCO2 "coal"
  let alt_co2 := alt_energy * fuelCO2of altType
  let current_co2_kg_h := (coal_co2 + alt_co2) / 3.6
  let rec_coal_co2 :=
    if total ≠ 0 then (total - target_alt_energy) * fuelCO2 "coal" else 0
  let rec_alt_co2 := target_alt_energy * fuelCO2of altType
  let optimized_co2_kg_h := (rec_coal_co2 + rec_alt_co2) / 3.6
  let co2_reduction := current_co2_kg_h - optimized_co2_kg_h
  let feasibility := if target_tsr ≤ 40 then "feasible" else "review_required"
  { current_tsr := some (pyRound tsr 2)
    target_tsr := target_tsr
    recommended_coal_rate_tph := some (pyRound rec_coal 3)
    recommended_alt_fuel_rate_tph := some (pyRound rec_alt 3)
    co2_reduction_kg_h := some (pyRound co2_reduction 2)
    feasibility := feasibility
    fuel_error := Option.none }

/-- Body of `optimize_fuel_mix` (lines 224-252). Both rates are forced
numeric by the `rate * cv * 1000` multiplications. -/
def fuelBody (d : PyDict) (target_tsr : ℚ) : PyM FuelResult := do
  let coal_rate ← toNum (dget d "coal_rate_tph" (PyVal.num 0))
  let alt_rate ← toNum (dget d "alt_fuel_rate_tph" (PyVal.num 0))
  let altType := dget d "alt_fuel_type" (PyVal.str "waste_tire")
  pure (fuelResultOf coal_rate alt_rate altType target_tsr)

/-- Error structure of `optimize_fuel_mix` (lines 253-263). -/
def fuelErrorResult (e : String) (target_tsr : ℚ) : FuelResult :=
  { current_tsr := Option.none
    target_tsr := target_tsr
    recommended_coal_rate_tph := Option.none
    recommended_alt_fuel_rate_tph := Option.none
    co2_reduction_kg_h := Option.none
    feasibility := "error"
    fuel_error := some ("fuel_optimization_failed: " ++ e) }

/-- `AlternativeFuelOptimizer.optimize_fuel_mix` (lines 223-263);
`target_tsr` defaults to 30 at the call sites. -/
def optimize_fuel_mix (d : PyDict) (target_tsr : ℚ) : FuelResult :=
  match fuelBody d target_tsr with
  | Except.ok r => r
  | Except.error e => fuelErrorResult e target_tsr

/-! ### MaintenanceCalculator (optimization_tools.py lines 403-444) -/

/-- Result dict of `calculate_equipment_health_score`. -/
structure HealthResult where
  health_score : Option ℚ
  failure_risk : Option ℚ
  status : String
  maintenance_required : Option Bool
deriving DecidableEq, Repr

/-- Body of `calculate_equipment_health_score` (lines 417-435). The
baseline power is forced numeric by the `baseline_power > 0` guard, the
current power only when that guard holds; the efficiency and the
maintenance days are forced on every path (`100 - health_score` and the
`maintenance_days > 7` / `> 14` comparisons), so resolving them after the
power ratio yields the same ok/error outcome as Python. -/
def healthBody (efficiency current_power baseline_power maintenance_days : PyVal) :
    PyM HealthResult := do
  let bp ← toNum baseline_power
  let power_ratio ←
    if 0 < bp then do
      let cp ← toNum current_power
      pure (cp / bp)
    else pure (1 : ℚ)
  let eff ← toNum efficiency
  let md ← toNum maintenance_days
  let h1 := if power_ratio > 1.1 then eff - (power_ratio - 1) * 20 else eff
  let health_score := if md > 7 then h1 - (md - 7) * 3 else h1
  let failure_risk := max 0 (100 - health_score)
  let status :=
    if failure_risk < 20 then "good"
    else if failure_risk < 40 then "warning"
    else "critical"
  pure {
    health_score := some (pyRound health_score 2)
    failure_risk := some (pyRound failure_risk 2)
    status := status
    maintenance_required := some (decide (md > 14)) }

/-- Error structure of `calculate_equipment_health_score` (lines 436-444). -/
def healthErrorResult : HealthResult :=
  { health_score := Option.none
    failure_risk := Option.none
    status := "error"
    maintenance_required := Option.none }

/-- `MaintenanceCalculator.calculate_equipment_health_score` (lines 409-444). -/
def calculate_equipment_health_score
    (efficiency current_power baseline_power maintenance_days : PyVal) : HealthResult :=
  match healthBody efficiency current_power baseline_power maintenance_days with
  | Except.ok r => r
  | Except.error _ => healthErrorResult

/-! ### PlantKPIDashboard (optimization_tools.py lines 266-400) -/

/-- Plant-data summary dict handed to the dashboard
(`scheduler.py _get_plant_data_summary`, lines 112-134). -/
structure Summary where
  raw_material : PyDict
  grinding : PyDict
  kiln : PyDict
  overview : PyDict
deriving DecidableEq, Repr

/-- `energy["specific_energy_consumption"].get("value", 28)` as a dynamic
value: the "value" key is always present, so its content (possibly null)
is returned rather than the 28 default. -/
def secValuePy (m : SecMetric) : PyVal :=
  match m.value with
  | some q => PyVal.num q
  | Option.none => PyVal.pynone

/-- An optional rational as the dynamic value stored under an
always-present dict key (null when absent). -/
def optValuePy (v : Option ℚ) : PyVal :=
  match v with
  | some q => PyVal.num q
  | Option.none => PyVal.pynone

/-- `_calculate_plant_efficiency` (lines 305-331): base 70 with banded
adjustments, clamped to [55,100]. Comparisons against null scores raise
`TypeError`, which the report-level catch-all turns into the error report. -/
def calculate_plant_efficiency (plant : Summary) (energy : GrindingResult)
    (fuel : FuelResult) (chem : ChemResult) : PyM ℚ := do
  let s ← toNum (dget plant.overview "specific_energy_consumption"
    (secValuePy energy.specific_energy_consumption))
  let base1 := (70 : ℚ) + (if s ≤ 25 then 10 else if s ≤ 30 then 5 else 0)
  let q ← toNum (dget plant.overview "ai_quality_score" (PyVal.num 90))
  let base2 := base1 + (if q ≥ 95 then 8 else if q ≥ 90 then 5 else 0)
  let t ← toNum (optValuePy fuel.current_tsr)
  let base3 := base2 + (if t ≥ 30 then 5 else if t ≥ 20 then 2 else 0)
  let base4 := base3 +
    (if chem.lsf_pct.status = "optimal" then 2
     else if chem.lsf_pct.status = "critical" then -4 else 0)
  pure (min 100 (max 55 base4))

/-- The `energy_savings` dict (lines 333-348). -/
structure Savings where
  energy_saved_kwh : ℚ
  cost_saved_usd : ℚ
  co2_reduced_kg : ℚ
deriving DecidableEq, Repr

/-- `_calculate_energy_savings` (lines 333-348), target SEC fixed at 25. -/
def calculate_energy_savings (plant : Summary) (energy : GrindingResult) :
    PyM Savings := do
  let cs ← toNum (dget plant.overview "specific_energy_consumption"
    (secValuePy energy.specific_energy_consumption))
  let feedV := dget plant.grinding "total_feed_rate_tph" (PyVal.num 80)
  let f ← toNum (if truthy feedV then feedV else PyVal.num 80)
  let saved := max 0 ((cs - 25) * f)
  pure ⟨pyRound saved 2, pyRound (saved * 0.15) 2, pyRound (saved * 0.5) 2⟩

/-- Recommendation record appended by `_generate_recommendations`
(lines 350-400). -/
structure RecRecord where
  process_area : String
  recommendation_type : String
  priority_level : ℕ
  description : String
  estimated_savings_kwh : ℚ
  estimated_savings_cost : ℚ
deriving DecidableEq, Repr

/-- `_generate_recommendations` (lines 350-400): grinding, chemistry and
fuel findings merged in that order. -/
def generate_recommendations (energy : GrindingResult) (chem : ChemResult)
    (fuel : FuelResult) : PyM (List RecRecord) := do
  let secData := energy.specific_energy_consumption
  let r1 ←
    if secData.status = "critical" then do
      let ps ← toNum (optValuePy secData.potential_savings_kwh)
      pure [RecRecord.mk "grinding" "energy_optimization" 1
        "Critical grinding SEC - implement mill audit & adjust classifier/feed."
        ps (pyRound (ps * 0.15) 2)]
    else do
      let ps ← toNum (optValuePy secData.potential_savings_kwh)
      if ps > 0 then
        pure [RecRecord.mk "grinding" "energy_optimization" 2
          "Capture grinding SEC improvement potential."
          ps (pyRound (ps * 0.15) 2)]
      else pure []
  let r2 :=
    if chem.lsf_pct.status = "critical" then
      [RecRecord.mk "raw_material" "quality_stability" 1
        "LSF out of control limits - adjust raw mix proportioning." 0 0]
    else []
  let t ← toNum (optValuePy fuel.current_tsr)
  let r3 :=
    if t < fuel.target_tsr then
      [RecRecord.mk "kiln" "alternative_fuel" 3
        "Increase alternative fuel rate to reach TSR target." 0 0]
    else []
  pure (r1 ++ r2 ++ r3)

/-- Result of `generate_comprehensive_report`; `Option.none` sub-results
model the empty dicts of the error report (lines 292-303). -/
structure KpiReport where
  timestamp : String
  chemistry : Option ChemResult
  energy : Option GrindingResult
  fuel_optimization : Option FuelResult
  plant_efficiency_score : Option ℚ
  energy_savings : Option Savings
  recommendations : List RecRecord
  kpi_error : Option String
deriving DecidableEq, Repr

/-- Body of `generate_comprehensive_report` (lines 273-291). -/
def reportBody (now : String) (plant : Summary) : PyM KpiReport := do
  let chem := analyze_chemistry plant.raw_material
  let energy := analyze_grinding_efficiency plant.grinding
  let fuel := optimize_fuel_mix plant.kiln 30
  let score ← calculate_plant_efficiency plant energy fuel chem
  let savings ← calculate_energy_savings plant energy
  let recs ← generate_recommendations energy chem fuel
  pure { timestamp := now
         chemistry := some chem
         energy := some energy
         fuel_optimization := some fuel
         plant_efficiency_score := some score
         energy_savings := some savings
         recommendations := recs
         kpi_error := Option.none }

/-- `PlantKPIDashboard.generate_comprehensive_report` with its catch-all
error report (lines 272-303). -/
def generate_comprehensive_report (now : String) (plant : Summary) : KpiReport :=
  match reportBody now plant with
  | Except.ok r => r
  | Except.error e =>
    { timestamp := now
      chemistry := Option.none
      energy := Option.none
      fuel_optimization := Option.none
      plant_efficiency_score := Option.none
      energy_savings := Option.none
      recommendations := []
      kpi_error := some ("kpi_report_failed: " ++ e) }

/-! ### JSON wire values (the dicts passed to `json.dumps`) -/

/-- JSON values as produced by `json.dumps` on the broadcast payloads. -/
inductive Json where
  | jstr (s : String)
  | jnum (q : ℚ)
  | jbool (b : Bool)
  | jnull
  | jarr (xs : List Json)
  | jobj (fields : List (String × Json))

/-- Top-level keys of a JSON object, in insertion order. -/
def Json.keys : Json → List String
  | Json.jobj fs => fs.map (fun kv => kv.1)
  | _ => []

/-- Value under a top-level key of a JSON object. -/
def Json.lookup (j : Json) (k : String) : Option Json :=
  match j with
  | Json.jobj fs => List.lookup k fs
  | _ => Option.none

/-- A dynamic value serialized into JSON. -/
def pyValJson : PyVal → Json
  | PyVal.num q => Json.jnum q
  | PyVal.str s => Json.jstr s
  | PyVal.pybool b => Json.jbool b
  | PyVal.pynone => Json.jnull

/-- A dict serialized into a JSON object. -/
def dictJson (d : PyDict) : Json :=
  Json.jobj (d.map (fun kv => (kv.1, pyValJson kv.2)))

/-- An optional number under an always-present key (null when absent). -/
def optJson (v : Option ℚ) : Json :=
  match v with
  | some q => Json.jnum q
  | Option.none => Json.jnull

/-- The plant-data summary serialized for the `plant_update` broadcast. -/
def summaryJson (s : Summary) : Json :=
  Json.jobj [("raw_material", dictJson s.raw_material),
             ("grinding", dictJson s.grinding),
             ("kiln", dictJson s.kiln),
             ("overview", dictJson s.overview)]

/-- Metric cell serialized (value/status; constant target annotations of
the source dicts add no information to the envelope claims). -/
def metricJson (m : Metric) : Json :=
  Json.jobj [("value", optJson m.value), ("status", Json.jstr m.status)]

/-- Chemistry result serialized. -/
def chemJson (c : ChemResult) : Json :=
  Json.jobj [("lsf", metricJson c.lsf), ("lsf_pct", metricJson c.lsf_pct),
             ("silica_modulus", metricJson c.silica_modulus),
             ("alumina_modulus", metricJson c.alumina_modulus),
             ("c3s", metricJson c.c3s),
             ("recommendations", Json.jarr (c.recommendations.map Json.jstr))]

/-- Grinding result serialized. -/
def energyJson (g : GrindingResult) : Json :=
  Json.jobj [("specific_energy_consumption",
              Json.jobj [("value", optJson g.specific_energy_consumption.value),
                         ("status", Json.jstr g.specific_energy_consumption.status),
                         ("potential_savings_kwh",
                          optJson g.specific_energy_consumption.potential_savings_kwh),
                         ("target", Json.jnum g.specific_energy_consumption.target)]),
             ("efficiency_pct", optJson g.efficiency_pct),
             ("optimization_potential_kw", optJson g.optimization_potential_kw),
             ("recommendations", Json.jarr (g.recommendations.map Json.jstr))]

/-- Fuel result serialized. -/
def fuelJson (f : FuelResult) : Json :=
  Json.jobj [("current_tsr", optJson f.current_tsr),
             ("target_tsr", Json.jnum f.target_tsr),
             ("recommended_coal_rate_tph", optJson f.recommended_coal_rate_tph),
             ("recommended_alt_fuel_rate_tph", optJson f.recommended_alt_fuel_rate_tph),
             ("co2_reduction_kg_h", optJson f.co2_reduction_kg_h),
             ("feasibility", Json.jstr f.feasibility)]

/-- Recommendation record serialized. -/
def recJson (r : RecRecord) : Json :=
  Json.jobj [("process_area", Json.jstr r.process_area),
             ("recommendation_type", Json.jstr r.recommendation_type),
             ("priority_level", Json.jnum r.priority_level),
             ("description", Json.jstr r.description),
             ("estimated_savings_kwh", Json.jnum r.estimated_savings_kwh),
             ("estimated_savings_cost", Json.jnum r.estimated_savings_cost)]

/-- KPI report serialized for the `optimization` broadcast (empty objects
for the error report's empty sub-dicts). -/
def kpiJson (k : KpiReport) : Json :=
  Json.jobj [("timestamp", Json.jstr k.timestamp),
             ("chemistry", (k.chemistry.map chemJson).getD (Json.jobj [])),
             ("energy", (k.energy.map energyJson).getD (Json.jobj [])),
             ("fuel_optimization", (k.fuel_optimization.map fuelJson).getD (Json.jobj [])),
             ("plant_efficiency_score", optJson k.plant_efficiency_score),
             ("energy_savings",
              (k.energy_savings.map (fun s => Json.jobj
                [("energy_saved_kwh", Json.jnum s.energy_saved_kwh),
                 ("cost_saved_usd", Json.jnum s.cost_saved_usd),
                 ("co2_reduced_kg", Json.jnum s.co2_reduced_kg)])).getD (Json.jobj [])),
             ("recommendations", Json.jarr (k.recommendations.map recJson))]

/-! ### The four wire messages the core sends
(`scheduler.py` lines 93 and 140, `routers/websockets.py` lines 41 and 62) -/

/-- The `plant_update` broadcast message (scheduler.py line 140). -/
def plantUpdateMessage (now : String) (payload : Json) : Json :=
  Json.jobj [("type", Json.jstr "plant_update"),
             ("created_at", Json.jstr now),
             ("data", payload)]

/-- The `optimization` broadcast message (scheduler.py line 93). -/
def optimizationMessage (payload : Json) : Json :=
  Json.jobj [("type", Json.jstr "optimization"), ("data", payload)]

/-- The `initial` personal message (routers/websockets.py line 41). -/
def initialMessage (payload : Json) : Json :=
  Json.jobj [("type", Json.jstr "initial"), ("data", payload)]

/-- The `welcome` personal message (routers/websockets.py line 62). -/
def welcomeMessage : Json :=
  Json.jobj [("type", Json.jstr "welcome"),
             ("message", Json.jstr "Subscribed to alerts")]

/-- The wire envelope asserted by the spec (§6): a "type" among the four
message types plus "data" and "created_at" fields. -/
def envelopeOK (j : Json) : Bool :=
  (match j.lookup "type" with
   | some (Json.jstr t) =>
     t == "initial" || t == "plant_update" || t == "optimization" || t == "welcome"
   | _ => false) &&
  (j.keys.contains "data") && (j.keys.contains "created_at")

/-! ### Scheduler jobs (scheduler.py lines 13-155)

The store collaborator is opaque (spec §6); within one run it is modelled
as a map from table name to latest reading, assumed stable across the two
read points of a run, and its insert operations are recorded as trace
events rather than raising. -/

/-- Table-name constants (`app/core/tables.py`). -/
def RAW_MATERIAL_FEED : String := "raw_material_feed"

def GRINDING_OPERATIONS : String := "grinding_operations"

def KILN_OPERATIONS : String := "kiln_operations"

def QUALITY_CONTROL : String := "quality_control"

def AI_RECOMMENDATIONS : String := "ai_recommendations"

def OPTIMIZATION_RESULTS : String := "optimization_results"

/-- Store collaborator: `get_latest(table)` returns the latest reading or
none (spec §6); a returned empty dict is falsy in the summary's guards. -/
structure Store where
  latest : String → Option PyDict

/-- Alert record persisted to `ai_recommendations`
(scheduler.py lines 44-55 and 76-82). -/
structure AlertRecord where
  created_at : String
  process_area : String
  recommendation_type : String
  priority_level : ℕ
  description : String
  estimated_savings_kwh : ℚ
  estimated_savings_cost : ℚ
  action_taken : Bool
deriving DecidableEq, Repr

/-- Ledger row persisted to `optimization_results`
(scheduler.py lines 84-91). -/
structure OptimizationRecord where
  created_at : String
  energy_saved_kwh : ℚ
  cost_saved_usd : ℚ
  co2_reduced_kg : ℚ
  model_confidence : ℚ
deriving DecidableEq, Repr

/-- Externally visible effects of one job run, in program order. -/
inductive Event where
  | insertAlert (table : String) (a : AlertRecord)
  | insertOpt (table : String) (o : OptimizationRecord)
  | broadcastEv (msg : Json)

/-- Body of `_get_plant_data_summary` (lines 113-131); `if grinding:` and
`if quality:` are Python truthiness tests, false for a missing or empty
reading, and `reading or {}` substitutes the empty dict. -/
def summaryBody (store : Store) : PyM Summary := do
  let raw := store.latest RAW_MATERIAL_FEED
  let grind := store.latest GRINDING_OPERATIONS
  let kiln := store.latest KILN_OPERATIONS
  let quality := store.latest QUALITY_CONTROL
  let secEntry : PyDict ←
    match grind with
    | some g =>
      if g.isEmpty then pure []
      else do
        let powerV := dget g "power_consumption_kw" (PyVal.num 2000)
        let feedV := dget g "total_feed_rate_tph" (PyVal.num 80)
        if truthy feedV then do
          let p ← toNum powerV
          let f ← toNum feedV
          pure [("specific_energy_consumption", PyVal.num (p / f))]
        else pure [("specific_energy_consumption", PyVal.num 25)]
    | Option.none => pure []
  let qEntry : PyDict :=
    match quality with
    | some q =>
      if q.isEmpty then []
      else [("ai_quality_score", dget q "ai_quality_score" (PyVal.num 90))]
    | Option.none => []
  pure { raw_material := raw.getD []
         grinding := grind.getD []
         kiln := kiln.getD []
         overview := secEntry ++ qEntry ++ [("plant_availability_pct", PyVal.num 87)] }

/-- `_get_plant_data_summary` with its catch-all fallback (lines 132-134). -/
def plantSummary (store : Store) : Summary :=
  match summaryBody store with
  | Except.ok s => s
  | Except.error _ => ⟨[], [], [], []⟩

/-- The realtime alert dict (scheduler.py lines 44-55), given the
potential-savings figure of the critical grinding result. -/
def realtimeAlert (now : String) (ps : ℚ) : AlertRecord :=
  { created_at := now
    process_area := "grinding"
    recommendation_type := "energy_optimization"
    priority_level := 1
    description := "Critical grinding energy consumption detected."
    estimated_savings_kwh := ps
    estimated_savings_cost := ps * 0.15
    action_taken := false }

/-- `CementPlantScheduler.process_realtime_data` (lines 22-68) as its trace
of store writes and broadcasts: at most one alert (only on a critical
grinding status), then the `plant_update` broadcast, which re-reads the
store through `_broadcast_plant_update` / `_get_plant_data_summary`. -/
def process_realtime_data (now : String) (store : Store) : List Event :=
  let alerts : List AlertRecord :=
    match store.latest GRINDING_OPERATIONS with
    | some g =>
      let r := analyze_grinding_efficiency g
      if r.specific_energy_consumption.status = "critical" then
        match r.specific_energy_consumption.potential_savings_kwh with
        | some ps => [realtimeAlert now ps]
        | Option.none => []
      else []
    | Option.none => []
  alerts.map (Event.insertAlert AI_RECOMMENDATIONS) ++
    [Event.broadcastEv (plantUpdateMessage now (summaryJson (plantSummary store)))]

/-- A dashboard recommendation spread into an alert record with
`created_at` and `action_taken: False` (scheduler.py lines 76-81). -/
def recToAlert (now : String) (r : RecRecord) : AlertRecord :=
  { created_at := now
    process_area := r.process_area
    recommendation_type := r.recommendation_type
    priority_level := r.priority_level
    description := r.description
    estimated_savings_kwh := r.estimated_savings_kwh
    estimated_savings_cost := r.estimated_savings_cost
    action_taken := false }

/-- The `optimization_results` row (scheduler.py lines 84-90):
`kpi_result["energy_savings"].get(..., 0)` with the error report's empty
savings dict falling back to 0, and a fixed 0.92 model confidence. -/
def optimizationRecord (now : String) (kpi : KpiReport) : OptimizationRecord :=
  { created_at := now
    energy_saved_kwh := ((kpi.energy_savings).map Savings.energy_saved_kwh).getD 0
    cost_saved_usd := ((kpi.energy_savings).map Savings.cost_saved_usd).getD 0
    co2_reduced_kg := ((kpi.energy_savings).map Savings.co2_reduced_kg).getD 0
    model_confidence := 0.92 }

/-- `CementPlantScheduler.run_optimization_analysis` (lines 70-95) as its
trace: one alert insert per dashboard recommendation, one ledger insert,
then the `optimization` broadcast. -/
def run_optimization_analysis (now : String) (store : Store) : List Event :=
  let plant := plantSummary store
  let kpi := generate_comprehensive_report now plant
  (kpi.recommendations.map (fun r => Event.insertAlert AI_RECOMMENDATIONS (recToAlert now r))) ++
    [Event.insertOpt OPTIMIZATION_RESULTS (optimizationRecord now kpi)] ++
    [Event.broadcastEv (optimizationMessage (kpiJson kpi))]

/-! ### ConnectionManager (server/app/utils/websocket_manager.py lines 9-57)

Connection handles are an arbitrary type with decidable equality; the
outcome of `websocket.send_text` is abstracted by a predicate `send`
(`true` = the send returned, `false` = it raised). -/

/-- Registry state: the list of live handles and their metadata. -/
structure ConnectionManager (C : Type) where
  active_connections : List C
  connection_info : List (C × PyDict)

/-- `ConnectionManager.disconnect` (lines 20-24): idempotent removal of the
handle and its metadata (`list.remove` drops the first occurrence). -/
def disconnect [DecidableEq C] (m : ConnectionManager C) (c : C) : ConnectionManager C :=
  if c ∈ m.active_connections then
    { active_connections := m.active_connections.erase c
      connection_info := m.connection_info.filter (fun p => p.1 ≠ c) }
  else m

/-- `ConnectionManager.broadcast` (lines 35-48): attempt a send to every
currently-registered handle, collecting the failed ones, then disconnect
exactly the failed ones after the sweep. Returns the new state and the
list of handles the message was delivered to, in registration order. -/
def broadcast [DecidableEq C] (m : ConnectionManager C) (send : C → Bool) :
    ConnectionManager C × List C :=
  if m.active_connections.isEmpty then (m, [])
  else
    let delivered := m.active_connections.filter (fun c => send c)
    let disconnected := m.active_connections.filter (fun c => !(send c))
    (disconnected.foldl disconnect m, delivered)

/-! ### Scheduler job registration (scheduler.py lines 145-155)

`setup_scheduler` registers four interval jobs, each with
`max_instances=1, coalesce=True`. The APScheduler runtime is a third-party
collaborator; its tick handling is modelled from the spec below. -/

/-- Arguments of one `scheduler.add_job` call. -/
structure JobConfig where
  id : String
  interval_seconds : ℚ
  max_instances : ℕ
  coalesce : Bool
deriving DecidableEq, Repr

/-- The four jobs registered by `setup_scheduler` (lines 148-151). -/
def scheduledJobs : List JobConfig :=
  [⟨"realtime_processing", 15, 1, true⟩,
   ⟨"optimization_analysis", 15 * 60, 1, true⟩,
   ⟨"equipment_health", 4 * 3600, 1, true⟩,
   ⟨"sample_data", 30, 1, true⟩]

/-- The `max_instances` bound registered for a job id (0 for an unknown id,
which can never start). -/
def maxInstancesFor (j : String) : ℕ :=
  ((scheduledJobs.find? (fun c => c.id == j)).map JobConfig.max_instances).getD 0

/-- Modelled from the spec: the scheduling authority's per-job tick
handling, which is performed by the third-party APScheduler runtime
configured on lines 148-151. Spec §4.3/§5: "a new tick is dropped/coalesced,
never queued, if the previous run of that same job has not finished" —
i.e. a tick starts a run only while fewer than `max_instances` runs of that
job are in flight, and a finish retires one run. -/
inductive SchedAction where
  | tick (j : String)
  | finish (j : String)
deriving DecidableEq, Repr

/-- One scheduler step over the in-flight-run counts. -/
def schedStep (running : String → ℕ) : SchedAction → (String → ℕ)
  | SchedAction.tick j =>
    if running j < maxInstancesFor j then
      Function.update running j (running j + 1)
    else running
  | SchedAction.finish j => Function.update running j (running j - 1)

/-- In-flight-run counts after a sequence of scheduler actions, starting
with no job running. -/
def schedRun (as : List SchedAction) : String → ℕ :=
  as.foldl schedStep (fun _ => 0)

/-! ## Helper lemmas -/

/-- Successful bind in the exception monad splits into two successes. -/
theorem pym_bind_ok {α β : Type} (x : PyM α) (f : α → PyM β) (b : β)
    (h : x >>= f = Except.ok b) : ∃ a, x = Except.ok a ∧ f a = Except.ok b := by
  cases x with
  | error e => simp [Bind.bind, Except.bind] at h
  | ok a => exact ⟨a, rfl, by simpa [Bind.bind, Except.bind] using h⟩

/-- Every fuel has a positive calorific value in the table (default 25). -/
theorem fuelCV_pos (s : String) : 0 < fuelCV s := by
  unfold fuelCV; split_ifs <;> norm_num

/-- Positive calorific value for a dynamic fuel key. -/
theorem fuelCVof_pos (v : PyVal) : 0 < fuelCVof v := by
  cases v with
  | str s => exact fuelCV_pos s
  | num q => norm_num [fuelCVof]
  | pybool b => norm_num [fuelCVof]
  | pynone => norm_num [fuelCVof]

/-- One scheduler step preserves the per-job in-flight bound. -/
theorem schedStep_bound (running : String → ℕ)
    (h : ∀ j, running j ≤ maxInstancesFor j) (a : SchedAction) :
    ∀ j, schedStep running a j ≤ maxInstancesFor j := by
  intro j
  cases a with
  | tick j0 =>
    simp only [schedStep]
    by_cases hlt : running j0 < maxInstancesFor j0
    · rw [if_pos hlt]
      rcases eq_or_ne j j0 with rfl | hj
      · simpa [Function.update_apply] using hlt
      · simpa [Function.update_apply, hj] using h j
    · rw [if_neg hlt]; exact h j
  | finish j0 =>
    simp only [schedStep]
    rcases eq_or_ne j j0 with rfl | hj
    · simp only [Function.update_apply, if_pos rfl]
      exact le_trans (Nat.sub_le _ _) (h j)
    · simpa [Function.update_apply, hj] using h j

/-- The in-flight count of every job stays below its registered
`max_instances` bound along any action sequence. -/
theorem schedRun_bound (as : List SchedAction) :
    ∀ j, schedRun as j ≤ maxInstancesFor j := by
  suffices h : ∀ (running : String → ℕ),
      (∀ j, running j ≤ maxInstancesFor j) →
      ∀ j, as.foldl schedStep running j ≤ maxInstancesFor j by
    exact h (fun _ => 0) (fun _ => Nat.zero_le _)
  induction as with
  | nil => intro running h j; exact h j
  | cons a tl ih =>
    intro running h j
    exact ih _ (schedStep_bound running h a) j

/-! ## Claims -/

/-- C4: every job registered by `setup_scheduler` carries
`max_instances = 1` and `coalesce = True`, and under the modelled tick
semantics (a tick is dropped while the job is running, never queued) the
number of concurrent executions of that job never exceeds 1, for every
sequence of tick/finish actions. -/
theorem single_instance_per_job (as : List SchedAction) (c : JobConfig)
    (hc : c ∈ scheduledJobs) :
    schedRun as c.id ≤ 1 ∧ c.max_instances = 1 ∧ c.coalesce = true := by
  have hmax : maxInstancesFor c.id = 1 ∧ c.max_instances = 1 ∧ c.coalesce = true := by
    fin_cases hc <;> exact ⟨rfl, rfl, rfl⟩
  exact ⟨hmax.1 ▸ schedRun_bound as c.id, hmax.2.1, hmax.2.2⟩

/-- Witness for `single_instance_per_job`: two overlapping ticks of the
realtime job leave at most one run in flight. -/
theorem single_instance_per_job_witness :
    schedRun [SchedAction.tick "realtime_processing",
              SchedAction.tick "realtime_processing"]
        (JobConfig.mk "realtime_processing" 15 1 true).id ≤ 1 ∧
    (JobConfig.mk "realtime_processing" 15 1 true).max_instances = 1 ∧
    (JobConfig.mk "realtime_processing" 15 1 true).coalesce = true :=
  single_instance_per_job _ _ (by decide)

/-- C5 counterexample: the `welcome` message sent on the alerts socket
(routers/websockets.py line 62) does not satisfy the claimed stable wire
envelope — it has no "data" field and no "created_at" field. -/
theorem wire_envelope_counterexample : envelopeOK welcomeMessage = false := rfl

/-- C5 (amended): every message carries a "type" field valued among the
four message types, but only `plant_update` carries the full
type/data/created_at envelope; `initial` and `optimization` carry "data"
without "created_at", and `welcome` carries a "message" field instead of
"data". -/
theorem wire_envelope_shapes (now : String) (payload : Json) :
    (plantUpdateMessage now payload).keys = ["type", "created_at", "data"] ∧
    (plantUpdateMessage now payload).lookup "type" = some (Json.jstr "plant_update") ∧
    envelopeOK (plantUpdateMessage now payload) = true ∧
    (optimizationMessage payload).keys = ["type", "data"] ∧
    (optimizationMessage payload).lookup "type" = some (Json.jstr "optimization") ∧
    (initialMessage payload).keys = ["type", "data"] ∧
    (initialMessage payload).lookup "type" = some (Json.jstr "initial") ∧
    Json.keys welcomeMessage = ["type", "message"] ∧
    Json.lookup welcomeMessage "type" = some (Json.jstr "welcome") :=
  ⟨rfl, rfl, rfl, rfl, rfl, rfl, rfl, rfl, rfl⟩

/-- C9: the feasibility field of `optimize_fuel_mix` depends on the target
TSR alone — "feasible" when `target_tsr ≤ 40`, "review_required"
otherwise — for every kiln input whose fuel-rate fields resolve to
numbers, regardless of their values or of the fuel type. -/
theorem fuel_feasibility_target_only (d : PyDict) (target_tsr cr ar : ℚ)
    (h1 : toNum (dget d "coal_rate_tph" (PyVal.num 0)) = Except.ok cr)
    (h2 : toNum (dget d "alt_fuel_rate_tph" (PyVal.num 0)) = Except.ok ar) :
    (optimize_fuel_mix d target_tsr).feasibility =
      if target_tsr ≤ 40 then "feasible" else "review_required" := by
  unfold optimize_fuel_mix fuelBody
  rw [h1, h2]
  simp [Bind.bind, Except.bind, pure, Except.pure, fuelResultOf]

/-- Witness for `fuel_feasibility_target_only` at a concrete kiln reading
and target 50. -/
theorem fuel_feasibility_target_only_witness :
    (optimize_fuel_mix
        [("coal_rate_tph", PyVal.num 10), ("alt_fuel_rate_tph", PyVal.num 3)]
        50).feasibility = "review_required" := by
  have h := fuel_feasibility_target_only
    [("coal_rate_tph", PyVal.num 10), ("alt_fuel_rate_tph", PyVal.num 3)]
    50 10 3 rfl rfl
  rw [h]; norm_num

/-- C10: the recommended fuel split conserves total thermal energy before
the final rounding of the reported rates:
`rec_alt*alt_cv*1000 + rec_coal*coal_cv*1000 = coal_energy + alt_energy`,
for every pair of numeric rates, every fuel type and every target TSR. -/
theorem fuel_mix_energy_conservation (coal_rate alt_rate target_tsr : ℚ)
    (altType : PyVal) :
    recommendedAltRate coal_rate alt_rate altType target_tsr * (fuelCVof altType * 1000)
      + recommendedCoalRate coal_rate alt_rate altType target_tsr * (fuelCV "coal" * 1000)
    = fuel_energy_of (PyVal.str "coal") coal_rate + fuel_energy_of altType alt_rate := by
  have hac : fuelCVof altType * 1000 ≠ 0 := by
    have := fuelCVof_pos altType; positivity
  have hcc : fuelCV "coal" * 1000 ≠ 0 := by
    have := fuelCV_pos "coal"; positivity
  unfold recommendedAltRate recommendedCoalRate
  rw [if_pos hac, if_pos hcc, div_mul_cancel₀ _ hac, div_mul_cancel₀ _ hcc]
  unfold fuelTotalEnergy
  ring

/-- C8 counterexample: at CaO = 59.05 (SiO2, Al2O3, Fe2O3 at their
defaults 20, 5, 3, denominator 63.95 > 0) the returned `lsf` value is
0.923 (rounded to 3 decimals) while the returned `lsf_pct` value is 92.34
(rounded to 2 decimals), and 92.34 ≠ 100 · 0.923: the returned fields are
not exactly related by the factor 100. -/
theorem lsf_pct_returned_counterexample :
    (analyze_chemistry [("cao_pct", PyVal.num 59.05)]).lsf.value = some (923 / 1000) ∧
    (analyze_chemistry [("cao_pct", PyVal.num 59.05)]).lsf_pct.value = some (4617 / 50) ∧
    ¬ ((4617 : ℚ) / 50 = 100 * (923 / 1000)) := by
  have hbody : chemistryBody [("cao_pct", PyVal.num 59.05)] =
      Except.ok (chemResultOf 59.05 20 5 3) := rfl
  refine ⟨?_, ?_, by norm_num⟩ <;>
    · simp only [analyze_chemistry, hbody]
      norm_num [chemResultOf, lsf_ratio_of, lsf_percent_of, lsfDenom,
        pyRound, roundHalfEven]

/-- C8 (amended): for every chemistry input with positive LSF denominator,
the computed (pre-rounding) `lsf_pct` equals exactly 100 times the
computed `lsf` ratio; the returned fields carry those two quantities
rounded independently (the ratio to 3 decimals, the percentage to 2), so
the exact factor-100 relation holds of the computed values, not of the
rounded returned fields. -/
theorem lsf_pct_ratio_relation (cao sio2 al2o3 fe2o3 : ℚ)
    (hd : 0 < lsfDenom sio2 al2o3 fe2o3) :
    lsf_percent_of cao sio2 al2o3 fe2o3 = 100 * lsf_ratio_of cao sio2 al2o3 fe2o3 ∧
    (analyze_chemistry [("cao_pct", PyVal.num cao), ("sio2_pct", PyVal.num sio2),
        ("al2o3_pct", PyVal.num al2o3), ("fe2o3_pct", PyVal.num fe2o3)]).lsf_pct.value
      = some (pyRound (lsf_percent_of cao sio2 al2o3 fe2o3) 2) ∧
    (analyze_chemistry [("cao_pct", PyVal.num cao), ("sio2_pct", PyVal.num sio2),
        ("al2o3_pct", PyVal.num al2o3), ("fe2o3_pct", PyVal.num fe2o3)]).lsf.value
      = some (pyRound (lsf_ratio_of cao sio2 al2o3 fe2o3) 3) := by
  have hne : lsfDenom sio2 al2o3 fe2o3 ≠ 0 := ne_of_gt hd
  refine ⟨?_, rfl, rfl⟩
  unfold lsf_percent_of lsf_ratio_of
  rw [if_neg hne, if_pos hne]
  ring

/-- Witness for `lsf_pct_ratio_relation` at CaO = 59.05 and default
companion oxides. -/
theorem lsf_pct_ratio_relation_witness :
    lsf_percent_of 59.05 20 5 3 = 100 * lsf_ratio_of 59.05 20 5 3 ∧
    (analyze_chemistry [("cao_pct", PyVal.num 59.05), ("sio2_pct", PyVal.num 20),
        ("al2o3_pct", PyVal.num 5), ("fe2o3_pct", PyVal.num 3)]).lsf_pct.value
      = some (pyRound (lsf_percent_of 59.05 20 5 3) 2) ∧
    (analyze_chemistry [("cao_pct", PyVal.num 59.05), ("sio2_pct", PyVal.num 20),
        ("al2o3_pct", PyVal.num 5), ("fe2o3_pct", PyVal.num 3)]).lsf.value
      = some (pyRound (lsf_ratio_of 59.05 20 5 3) 3) :=
  lsf_pct_ratio_relation 59.05 20 5 3 (by norm_num [lsfDenom])

/-- The grinding body on inputs with numeric power and feed values
produces exactly `grindingResultOf` at `grindingSec p f`. -/
theorem grindingBody_ok (d : PyDict) (p f : ℚ)
    (hp : toNum (dget d "power_consumption_kw" (PyVal.num 2000)) = Except.ok p)
    (hf : toNum (dget d "total_feed_rate_tph" (PyVal.num 80)) = Except.ok f) :
    grindingBody d = Except.ok (grindingResultOf (grindingSec p f) f
      (dget d "mill_type" PyVal.pynone) (dget d "differential_pressure_mbar" PyVal.pynone)) := by
  simp only [grindingBody, Bind.bind, Except.bind, hf]
  by_cases h0 : 0 < f
  · rw [if_pos h0, hp]
    simp [Except.bind, pure, Except.pure]
  · rw [if_neg h0]
    have hsec : grindingSec p f = 30 := by unfold grindingSec; rw [if_neg h0]
    simp [Except.bind, pure, Except.pure, hsec]

/-- C7: with `sec := grindingSec p f`, SEC equals `power/feed` for positive
feed and falls back to 30 otherwise; status and potential savings follow
the 25/30 bands (savings 0 when optimal, `(sec−25)·feed`, rounded to the
2-decimal returned field, otherwise); and the returned efficiency is
`100−(sec−25)·3` clamped into [60,100]. -/
theorem grinding_efficiency_spec (d : PyDict) (p f : ℚ)
    (hp : toNum (dget d "power_consumption_kw" (PyVal.num 2000)) = Except.ok p)
    (hf : toNum (dget d "total_feed_rate_tph" (PyVal.num 80)) = Except.ok f) :
    ((0 < f → grindingSec p f = p / f) ∧ (¬ 0 < f → grindingSec p f = 30)) ∧
    (grindingSec p f ≤ 25 →
      (analyze_grinding_efficiency d).specific_energy_consumption.status = "optimal" ∧
      (analyze_grinding_efficiency d).specific_energy_consumption.potential_savings_kwh
        = some 0) ∧
    (25 < grindingSec p f ∧ grindingSec p f ≤ 30 →
      (analyze_grinding_efficiency d).specific_energy_consumption.status = "acceptable" ∧
      (analyze_grinding_efficiency d).specific_energy_consumption.potential_savings_kwh
        = some (pyRound ((grindingSec p f - 25) * f) 2)) ∧
    (30 < grindingSec p f →
      (analyze_grinding_efficiency d).specific_energy_consumption.status = "critical" ∧
      (analyze_grinding_efficiency d).specific_energy_consumption.potential_savings_kwh
        = some (pyRound ((grindingSec p f - 25) * f) 2)) ∧
    (analyze_grinding_efficiency d).efficiency_pct
      = some (min 100 (max 60 (100 - (grindingSec p f - 25) * 3))) := by
  have hres : analyze_grinding_efficiency d = grindingResultOf (grindingSec p f) f
      (dget d "mill_type" PyVal.pynone) (dget d "differential_pressure_mbar" PyVal.pynone) := by
    unfold analyze_grinding_efficiency
    rw [grindingBody_ok d p f hp hf]
  set sec := grindingSec p f with hsec
  refine ⟨⟨fun h0 => by unfold grindingSec at hsec; rw [hsec, if_pos h0],
           fun h0 => by unfold grindingSec at hsec; rw [hsec, if_neg h0]⟩, ?_, ?_, ?_, ?_⟩
  · intro hband
    rw [hres]
    constructor
    · show grindingStatus sec = "optimal"
      unfold grindingStatus; rw [if_pos hband]
    · show some (pyRound (grindingPotentialSavings sec f) 2) = some 0
      unfold grindingPotentialSavings
      rw [if_pos hband]
      norm_num [pyRound, roundHalfEven]
  · intro hband
    rw [hres]
    constructor
    · show grindingStatus sec = "acceptable"
      unfold grindingStatus
      rw [if_neg (by linarith [hband.1]), if_pos hband.2]
    · show some (pyRound (grindingPotentialSavings sec f) 2)
        = some (pyRound ((sec - 25) * f) 2)
      unfold grindingPotentialSavings
      rw [if_neg (by linarith [hband.1])]
  · intro hband
    rw [hres]
    constructor
    · show grindingStatus sec = "critical"
      unfold grindingStatus
      rw [if_neg (by linarith), if_neg (by linarith)]
    · show some (pyRound (grindingPotentialSavings sec f) 2)
        = some (pyRound ((sec - 25) * f) 2)
      unfold grindingPotentialSavings
      rw [if_neg (by linarith)]
  · rw [hres]; rfl

/-- Witness for `grinding_efficiency_spec` at the spec's example reading,
power 1850 kW and feed 85.2 tph (SEC ≈ 21.71, optimal, zero savings). -/
theorem grinding_efficiency_spec_witness :
    (analyze_grinding_efficiency [("power_consumption_kw", PyVal.num 1850),
        ("total_feed_rate_tph", PyVal.num 85.2)]).specific_energy_consumption.status
      = "optimal" ∧
    (analyze_grinding_efficiency [("power_consumption_kw", PyVal.num 1850),
        ("total_feed_rate_tph", PyVal.num 85.2)]).specific_energy_consumption.potential_savings_kwh
      = some 0 :=
  (grinding_efficiency_spec
    [("power_consumption_kw", PyVal.num 1850), ("total_feed_rate_tph", PyVal.num 85.2)]
    1850 85.2 rfl rfl).2.1 (by norm_num [grindingSec])

/-- C6: each calculator returns its body's result unchanged on success,
and when the body raises internally the calculator returns the explicit
error structure — every numeric metric field null and the status "error" —
for chemistry, grinding, fuel-mix and equipment-health alike. -/
theorem calculator_error_isolation :
    (∀ d r, chemistryBody d = Except.ok r → analyze_chemistry d = r) ∧
    (∀ d e, chemistryBody d = Except.error e →
      (analyze_chemistry d).lsf.value = Option.none ∧
      (analyze_chemistry d).lsf_pct.value = Option.none ∧
      (analyze_chemistry d).silica_modulus.value = Option.none ∧
      (analyze_chemistry d).alumina_modulus.value = Option.none ∧
      (analyze_chemistry d).c3s.value = Option.none ∧
      (analyze_chemistry d).lsf.status = "error" ∧
      (analyze_chemistry d).lsf_pct.status = "error" ∧
      (analyze_chemistry d).silica_modulus.status = "error" ∧
      (analyze_chemistry d).alumina_modulus.status = "error" ∧
      (analyze_chemistry d).c3s.status = "error") ∧
    (∀ d r, grindingBody d = Except.ok r → analyze_grinding_efficiency d = r) ∧
    (∀ d e, grindingBody d = Except.error e →
      (analyze_grinding_efficiency d).specific_energy_consumption.value = Option.none ∧
      (analyze_grinding_efficiency d).specific_energy_consumption.potential_savings_kwh
        = Option.none ∧
      (analyze_grinding_efficiency d).efficiency_pct = Option.none ∧
      (analyze_grinding_efficiency d).optimization_potential_kw = Option.none ∧
      (analyze_grinding_efficiency d).specific_energy_consumption.status = "error") ∧
    (∀ d t r, fuelBody d t = Except.ok r → optimize_fuel_mix d t = r) ∧
    (∀ d t e, fuelBody d t = Except.error e →
      (optimize_fuel_mix d t).current_tsr = Option.none ∧
      (optimize_fuel_mix d t).recommended_coal_rate_tph = Option.none ∧
      (optimize_fuel_mix d t).recommended_alt_fuel_rate_tph = Option.none ∧
      (optimize_fuel_mix d t).co2_reduction_kg_h = Option.none ∧
      (optimize_fuel_mix d t).feasibility = "error") ∧
    (∀ a b c m r, healthBody a b c m = Except.ok r →
      calculate_equipment_health_score a b c m = r) ∧
    (∀ a b c m e, healthBody a b c m = Except.error e →
      (calculate_equipment_health_score a b c m).health_score = Option.none ∧
      (calculate_equipment_health_score a b c m).failure_risk = Option.none ∧
      (calculate_equipment_health_score a b c m).maintenance_required = Option.none ∧
      (calculate_equipment_health_score a b c m).status = "error") := by
  refine ⟨?_, ?_, ?_, ?_, ?_, ?_, ?_, ?_⟩
  · intro d r h; simp [analyze_chemistry, h]
  · intro d e h; simp [analyze_chemistry, h, chemErrorResult]
  · intro d r h; simp [analyze_grinding_efficiency, h]
  · intro d e h; simp [analyze_grinding_efficiency, h, grindingErrorResult]
  · intro d t r h; simp [optimize_fuel_mix, h]
  · intro d t e h; simp [optimize_fuel_mix, h, fuelErrorResult]
  · intro a b c m r h; simp [calculate_equipment_health_score, h]
  · intro a b c m e h; simp [calculate_equipment_health_score, h, healthErrorResult]

/-- Witness for `calculator_error_isolation`: each calculator hit with a
non-numeric field returns the null-valued "error" structure. -/
theorem calculator_error_isolation_witness :
    (analyze_chemistry [("cao_pct", PyVal.str "oops")]).lsf.value = Option.none ∧
    (analyze_grinding_efficiency
        [("total_feed_rate_tph", PyVal.str "oops")]).efficiency_pct = Option.none ∧
    (optimize_fuel_mix [("coal_rate_tph", PyVal.str "oops")] 30).feasibility = "error" ∧
    (calculate_equipment_health_score (PyVal.str "oops") (PyVal.num 1800)
        (PyVal.num 1600) (PyVal.num 10)).status = "error" :=
  ⟨(calculator_error_isolation.2.1 [("cao_pct", PyVal.str "oops")] "TypeError" rfl).1,
   (calculator_error_isolation.2.2.2.1
      [("total_feed_rate_tph", PyVal.str "oops")] "TypeError" rfl).2.2.1,
   (calculator_error_isolation.2.2.2.2.2.1
      [("coal_rate_tph", PyVal.str "oops")] 30 "TypeError" rfl).2.2.2.2,
   (calculator_error_isolation.2.2.2.2.2.2.2 (PyVal.str "oops") (PyVal.num 1800)
      (PyVal.num 1600) (PyVal.num 10) "TypeError" rfl).2.2.2⟩

/-- With exactly one failing connection `k` among distinct registered
connections, the successful sends are exactly the others, in order. -/
theorem filter_send_single_fail {C : Type} [DecidableEq C] (l : List C) (k : C)
    (send : C → Bool) (hnd : l.Nodup) (hk : k ∈ l) (hkf : send k = false)
    (hoth : ∀ c ∈ l, c ≠ k → send c = true) :
    l.filter (fun c => send c) = l.erase k := by
  induction l with
  | nil => cases hk
  | cons a t ih =>
    have hnda := List.nodup_cons.1 hnd
    rcases List.mem_cons.1 hk with rfl | hkt
    · rw [List.filter_cons_of_neg (by simp [hkf]), List.erase_cons_head]
      apply List.filter_eq_self.2
      intro c hc
      exact hoth c (List.mem_cons_of_mem _ hc) (fun h => hnda.1 (h ▸ hc))
    · have hak : a ≠ k := fun h => hnda.1 (h ▸ hkt)
      have hsa : send a = true := hoth a (List.mem_cons_self a t) hak
      rw [List.filter_cons_of_pos (by simp [hsa]),
        List.erase_cons_tail (by simp [hak])]
      exact congrArg (List.cons a)
        (ih hnda.2 hkt (fun c hc hck => hoth c (List.mem_cons_of_mem _ hc) hck))

/-- With exactly one failing connection `k` among distinct registered
connections, the collected failures are exactly `[k]`. -/
theorem filter_fail_single_fail {C : Type} [DecidableEq C] (l : List C) (k : C)
    (send : C → Bool) (hnd : l.Nodup) (hk : k ∈ l) (hkf : send k = false)
    (hoth : ∀ c ∈ l, c ≠ k → send c = true) :
    l.filter (fun c => !(send c)) = [k] := by
  induction l with
  | nil => cases hk
  | cons a t ih =>
    have hnda := List.nodup_cons.1 hnd
    rcases List.mem_cons.1 hk with rfl | hkt
    · rw [List.filter_cons_of_pos (by simp [hkf])]
      have : t.filter (fun c => !(send c)) = [] := by
        apply List.filter_eq_nil_iff.2
        intro c hc
        simp [hoth c (List.mem_cons_of_mem _ hc) (fun h => hnda.1 (h ▸ hc))]
      rw [this]
    · have hak : a ≠ k := fun h => hnda.1 (h ▸ hkt)
      have hsa : send a = true := hoth a (List.mem_cons_self a t) hak
      rw [List.filter_cons_of_neg (by simp [hsa])]
      exact ih hnda.2 hkt (fun c hc hck => hoth c (List.mem_cons_of_mem _ hc) hck)

/-- C1: when exactly one registered connection `k` fails to send while all
others succeed, `broadcast` still delivers to every one of the other
connections (in registration order), and after the sweep exactly `k` has
been unregistered: the surviving registry is the original list minus `k`,
every non-failing connection is still registered and was sent to, and `k`
is gone. -/
theorem broadcast_isolation {C : Type} [DecidableEq C] (m : ConnectionManager C)
    (k : C) (send : C → Bool)
    (hnd : m.active_connections.Nodup)
    (hk : k ∈ m.active_connections)
    (hkf : send k = false)
    (hoth : ∀ c ∈ m.active_connections, c ≠ k → send c = true) :
    (broadcast m send).2 = m.active_connections.erase k ∧
    (broadcast m send).1.active_connections = m.active_connections.erase k ∧
    (∀ c ∈ m.active_connections, c ≠ k →
      c ∈ (broadcast m send).2 ∧ c ∈ (broadcast m send).1.active_connections) ∧
    k ∉ (broadcast m send).1.active_connections := by
  have hne : m.active_connections ≠ [] := List.ne_nil_of_mem hk
  have hemp : m.active_connections.isEmpty = false := by
    simpa [List.isEmpty_iff] using hne
  have hdel : (broadcast m send).2 = m.active_connections.erase k := by
    unfold broadcast
    rw [hemp]
    simpa using filter_send_single_fail m.active_connections k send hnd hk hkf hoth
  have hstate : (broadcast m send).1 = disconnect m k := by
    unfold broadcast
    rw [hemp]
    simp only [Bool.false_eq_true, if_false]
    rw [filter_fail_single_fail m.active_connections k send hnd hk hkf hoth]
    rfl
  have hactive : (broadcast m send).1.active_connections = m.active_connections.erase k := by
    rw [hstate]; unfold disconnect; rw [if_pos hk]
  refine ⟨hdel, hactive, ?_, ?_⟩
  · intro c hc hck
    constructor
    · rw [hdel]; exact (List.mem_erase_of_ne hck).2 hc
    · rw [hactive]; exact (List.mem_erase_of_ne hck).2 hc
  · rw [hactive]
    intro hmem
    exact (List.Nodup.mem_erase_iff hnd).1 hmem |>.1 rfl

/-- Witness for `broadcast_isolation`: three registered connections, the
second fails, the other two are delivered to and stay registered. -/
theorem broadcast_isolation_witness :
    (broadcast (ConnectionManager.mk [1, 2, 3] []) (fun c => c ≠ 2)).2 = [1, 3] ∧
    (broadcast (ConnectionManager.mk [1, 2, 3] []) (fun c => c ≠ 2)).1.active_connections
      = [1, 3] ∧
    (∀ c ∈ [1, 2, 3], c ≠ 2 →
      c ∈ (broadcast (ConnectionManager.mk [1, 2, 3] []) (fun c => c ≠ 2)).2 ∧
      c ∈ (broadcast (ConnectionManager.mk [1, 2, 3] [])
            (fun c => c ≠ 2)).1.active_connections) ∧
    (2 : ℕ) ∉ (broadcast (ConnectionManager.mk [1, 2, 3] [])
      (fun c => c ≠ 2)).1.active_connections := by
  have h := broadcast_isolation (ConnectionManager.mk [1, 2, 3] []) 2 (fun c => c ≠ 2)
    (by decide) (by decide) (by decide) (by decide)
  simpa using h

/-- Event classifier: store writes (alert or ledger inserts). -/
def Event.isInsert : Event → Bool
  | Event.insertAlert _ _ => true
  | Event.insertOpt _ _ => true
  | Event.broadcastEv _ => false

/-- Event classifier: alert-record inserts only. -/
def Event.isAlertInsert : Event → Bool
  | Event.insertAlert _ _ => true
  | _ => false

/-- Event classifier: broadcasts. -/
def Event.isBroadcast : Event → Bool
  | Event.broadcastEv _ => true
  | _ => false

/-- Every store write in the trace happens strictly before every broadcast
of the same trace. -/
def insertsPrecedeBroadcasts (tr : List Event) : Prop :=
  ∀ i j (hi : i < tr.length) (hj : j < tr.length),
    (tr.get ⟨i, hi⟩).isInsert = true → (tr.get ⟨j, hj⟩).isBroadcast = true → i < j

/-- A trace consisting of non-broadcast events followed by one final
broadcast puts every insert before every broadcast. -/
theorem insertsPrecede_of_trailing (xs : List Event) (msg : Json)
    (h : ∀ e ∈ xs, e.isBroadcast = false) :
    insertsPrecedeBroadcasts (xs ++ [Event.broadcastEv msg]) := by
  intro i j hi hj hins hbr
  have hlen : (xs ++ [Event.broadcastEv msg]).length = xs.length + 1 := by simp
  have hj' : j = xs.length := by
    by_contra hne
    have hjlt : j < xs.length := by rw [hlen] at hj; omega
    have hget : (xs ++ [Event.broadcastEv msg]).get ⟨j, hj⟩ = xs.get ⟨j, hjlt⟩ := by
      rw [List.get_eq_getElem, List.get_eq_getElem]
      exact List.getElem_append_left hjlt
    rw [hget] at hbr
    have hmem := xs.get_mem j hjlt
    rw [h _ hmem] at hbr
    cases hbr
  have hi' : i < xs.length := by
    by_contra hge
    have hieq : i = xs.length := by rw [hlen] at hi; omega
    subst hieq
    have hget : (xs ++ [Event.broadcastEv msg]).get ⟨xs.length, hi⟩
        = Event.broadcastEv msg := by
      rw [List.get_eq_getElem]
      simp
    rw [hget] at hins
    cases hins
  omega

/-- Successful `Except.bind` splits into two successes. -/
theorem except_bind_ok {α β : Type} (x : PyM α) (f : α → PyM β) (b : β)
    (h : Except.bind x f = Except.ok b) :
    ∃ a, x = Except.ok a ∧ f a = Except.ok b := by
  cases x with
  | error e => simp [Except.bind] at h
  | ok a => exact ⟨a, rfl, by simpa [Except.bind] using h⟩

/-- Every successful grinding analysis is a `grindingResultOf` instance. -/
theorem grindingBody_ok_shape (d : PyDict) (r : GrindingResult)
    (h : grindingBody d = Except.ok r) :
    ∃ sec feed mt dp, r = grindingResultOf sec feed mt dp := by
  simp only [grindingBody, Bind.bind] at h
  obtain ⟨f, hf, h2⟩ := except_bind_ok _ _ _ h
  by_cases h0 : 0 < f
  · rw [if_pos h0] at h2
    obtain ⟨p, hp, h3⟩ := except_bind_ok _ _ _ h2
    simp only [Except.bind, pure, Except.pure, Except.ok.injEq] at h3
    exact ⟨grindingSec p f, f, _, _, h3.symm⟩
  · rw [if_neg h0] at h2
    simp only [Except.bind, pure, Except.pure, Except.ok.injEq] at h2
    exact ⟨30, f, _, _, h2.symm⟩

/-- A critical grinding status comes from a successful analysis, whose
potential-savings field is always a number. -/
theorem grinding_critical_savings (g : PyDict)
    (h : (analyze_grinding_efficiency g).specific_energy_consumption.status = "critical") :
    ∃ ps, (analyze_grinding_efficiency g).specific_energy_consumption.potential_savings_kwh
      = some ps := by
  cases hb : grindingBody g with
  | error e =>
    have herr : analyze_grinding_efficiency g = grindingErrorResult e := by
      simp [analyze_grinding_efficiency, hb]
    rw [herr] at h
    simp [grindingErrorResult] at h
  | ok r =>
    have hag : analyze_grinding_efficiency g = r := by
      simp [analyze_grinding_efficiency, hb]
    obtain ⟨sec, feed, mt, dp, rfl⟩ := grindingBody_ok_shape g r hb
    rw [hag]
    exact ⟨_, rfl⟩

/-- C2: one realtime tick persists exactly one alert when a grinding
reading exists and its analysis is critical, zero alerts in every other
case (no reading, or any non-critical status), and always attempts exactly
one plant-snapshot broadcast. -/
theorem realtime_alert_cardinality (now : String) (store : Store) :
    ((process_realtime_data now store).filter Event.isAlertInsert).length =
      (match store.latest GRINDING_OPERATIONS with
       | some g =>
         if (analyze_grinding_efficiency g).specific_energy_consumption.status = "critical"
         then 1 else 0
       | Option.none => 0) ∧
    ((process_realtime_data now store).filter Event.isBroadcast).length = 1 := by
  cases hg : store.latest GRINDING_OPERATIONS with
  | none =>
    constructor <;>
      simp [process_realtime_data, hg, Event.isAlertInsert, Event.isBroadcast]
  | some g =>
    by_cases hc :
        (analyze_grinding_efficiency g).specific_energy_consumption.status = "critical"
    · obtain ⟨ps, hps⟩ := grinding_critical_savings g hc
      constructor <;>
        simp [process_realtime_data, hg, hc, hps, Event.isAlertInsert, Event.isBroadcast]
    · constructor <;>
        simp [process_realtime_data, hg, hc, Event.isAlertInsert, Event.isBroadcast]

/-- C3: in both the realtime run and the optimization-analysis run, every
store write (alert inserts, and the optimization ledger row) happens
strictly before the run's broadcast. -/
theorem persist_precedes_broadcast (now : String) (store : Store) :
    insertsPrecedeBroadcasts (process_realtime_data now store) ∧
    insertsPrecedeBroadcasts (run_optimization_analysis now store) := by
  constructor
  · simp only [process_realtime_data]
    apply insertsPrecede_of_trailing
    intro e he
    rcases List.mem_map.1 he with ⟨a, _, rfl⟩
    rfl
  · simp only [run_optimization_analysis]
    rw [List.append_assoc, ← List.append_assoc]
    apply insertsPrecede_of_trailing
    intro e he
    rcases List.mem_append.1 he with h1 | h2
    · rcases List.mem_map.1 h1 with ⟨a, _, rfl⟩
      rfl
    · rcases List.mem_singleton.1 h2 with rfl
      rfl

end Cement
